import Mathlib

/-!
# Cart and modal slices of the redux-toolkit shopping cart

A shallow embedding of

* `src/features/cart/cartSlice.js`   (the cart slice: `createSlice` with a name and an
  initial state, no `reducers`, and a default export only),
* `src/features/modal/modalSlice.js` (the modal slice: `openModal` / `closeModal`),
* `src/components/CartItem.jsx`      (the three click handlers),
* `src/components/CartContainer.jsx` (the `amount < 1` guard and the Clear Cart button),

together with the part of Redux Toolkit they rest on (`createSlice`, `createAction`,
the reducer built from the case reducers) and of the module system: a named import of
a name the module does not export stops the importing module from loading under ES
module linking, and is `undefined` (so that calling it throws) under a loader that
binds it late.

JavaScript numbers are modelled exactly: quantities as integers, prices as rationals.
The repository code performs no arithmetic on them; sums appear only on the
specification side.  `console.log` calls are omitted, they do not touch the state.
-/

namespace ReduxCart

/-! ## JavaScript values, actions, errors -/

/-- JavaScript values that travel as action payloads. -/
inductive JSValue where
  | undefined : JSValue
  | null : JSValue
  | bool (b : Bool) : JSValue
  | number (q : ℚ) : JSValue
  | string (s : String) : JSValue
  | object (fields : List (String × JSValue)) : JSValue

/-- A Redux action: a type string and a payload. -/
structure Action where
  type : String
  payload : JSValue

/-- Errors a JavaScript call can throw. -/
inductive JSError where
  | typeError (msg : String) : JSError
  | syntaxError (msg : String) : JSError
deriving DecidableEq

/-- An action creator as produced by Redux Toolkit: payload in, action out. -/
abbrev ActionCreator := JSValue → Action

/-- A case reducer: previous state and action in, next state out. -/
abbrev CaseReducer (σ : Type) := σ → Action → σ

/-! ## Redux Toolkit: `createAction`, `createSlice` -/

/-- The action type Redux Toolkit gives to the case reducer `actionKey` of the slice
named `slice`: the two joined by a slash. -/
def getType (slice actionKey : String) : String := slice ++ "/" ++ actionKey

/-- Redux Toolkit `createAction(type)`: the creator wraps its argument as the payload. -/
def createAction (type : String) : ActionCreator :=
  fun payload => { type := type, payload := payload }

/-- The options object handed to `createSlice`.  `reducers` is `none` when the key is
left out of the object literal. -/
structure SliceOptions (σ : Type) where
  name : String
  initialState : σ
  reducers : Option (List (String × CaseReducer σ))

/-- What `createSlice` returns: the slice name, its reducer and its action creators
(by key).  The reducer takes `none` for an `undefined` state. -/
structure Slice (σ : Type) where
  name : String
  reducer : Option σ → Action → σ
  actions : List (String × ActionCreator)

/-- Redux Toolkit `createSlice`.  A missing `reducers` counts as the empty object; one
action creator and one case is made per key; the reducer starts from `initialState`
when the state is `undefined`, runs the case reducer registered for the action type,
and returns the state as it is when there is none. -/
def createSlice {σ : Type} (options : SliceOptions σ) : Slice σ :=
  let reducers := options.reducers.getD []
  let cases : List (String × CaseReducer σ) :=
    reducers.map (fun kv => (getType options.name kv.1, kv.2))
  { name := options.name
    reducer := fun state action =>
      let state := state.getD options.initialState
      match cases.lookup action.type with
      | some caseReducer => caseReducer state action
      | none => state
    actions := reducers.map (fun kv => (kv.1, createAction (getType options.name kv.1))) }

/-- Dispatching a list of actions, in order, to one reducer. -/
def dispatchAll {σ : Type} (reducer : Option σ → Action → σ) (state : σ)
    (actions : List Action) : σ :=
  actions.foldl (fun s a => reducer (some s) a) state

/-! ## ES modules and calls -/

/-- A named import: the binding exported under `name`, or `none` (`undefined`) when the
module has no such export, as a bundler resolves it.  (Under strict ES module linking
the importing module does not load at all; either way no call of the binding returns.) -/
def importNamed (namedExports : List (String × ActionCreator)) (name : String) :
    Option ActionCreator :=
  namedExports.lookup name

/-- How the loader treats a named import that the exporting module lacks: `strict` is
ES module linking (the importing module fails to link, with a `SyntaxError`), `late`
binds the name to `undefined` and goes on. -/
inductive Linking where
  | strict : Linking
  | late : Linking
deriving DecidableEq

/-- Linking one import line: the `names` imported against the named exports of the
module they are imported from. -/
def linkNamed (linking : Linking) (namedExports : List (String × ActionCreator))
    (names : List String) : Except JSError Unit :=
  match linking with
  | Linking.late => Except.ok ()
  | Linking.strict =>
    match names.find? (fun name => (namedExports.lookup name).isNone) with
    | some name => Except.error (JSError.syntaxError ("no export named " ++ name))
    | none => Except.ok ()

/-- The store state after a click: the handler's actions dispatched in order, or the
state as it was when the handler threw before dispatching. -/
def afterClick {σ : Type} (reducer : Option σ → Action → σ) (state : σ)
    (clicked : Except JSError (List Action)) : σ :=
  match clicked with
  | Except.ok actions => actions.foldl (fun s a => reducer (some s) a) state
  | Except.error _ => state

/-- Calling an imported binding: calling `undefined` throws a `TypeError`. -/
def invoke (name : String) (f : Option ActionCreator) (arg : JSValue) :
    Except JSError Action :=
  match f with
  | some creator => Except.ok (creator arg)
  | none => Except.error (JSError.typeError (name ++ " is not a function"))

/-! ## `features/cart/cartSlice.js` -/

/-- One entry of the `cartItems` fixture, with the fields `CartItem` reads from it. -/
structure Item where
  id : String
  title : String
  img : String
  price : ℚ
  amount : Int
deriving DecidableEq

/-- The state of the cart slice. -/
structure CartState where
  cartItems : List Item
  amount : Int
  total : ℚ
  isLoading : Bool
deriving DecidableEq

namespace Cart

/-- The `initialState` of `cartSlice.js`; the fixture `cartItems` is a parameter. -/
def initialState (cartItems : List Item) : CartState :=
  { cartItems := cartItems
    amount := 0
    total := 0
    isLoading := true }

/-- The slice of `cartSlice.js`: a name and an initial state, no `reducers` key. -/
def cartSlice (cartItems : List Item) : Slice CartState :=
  createSlice { name := "cart", initialState := initialState cartItems, reducers := none }

/-- The default export of `cartSlice.js`: `cartSlice.reducer`. -/
def reducer (cartItems : List Item) : Option CartState → Action → CartState :=
  (cartSlice cartItems).reducer

/-- The named exports of `cartSlice.js`: there are none. -/
def namedExports : List (String × ActionCreator) := []

/-- The state of the cart store after the given actions, from the initial state. -/
def run (cartItems : List Item) (actions : List Action) : CartState :=
  dispatchAll (reducer cartItems) (initialState cartItems) actions

end Cart

/-! ## `features/modal/modalSlice.js` -/

/-- The state of the modal slice. -/
structure ModalState where
  isOpen : Bool
deriving DecidableEq

namespace Modal

/-- The `initialState` of `modalSlice.js`. -/
def initialState : ModalState := { isOpen := false }

/-- The slice of `modalSlice.js` (its name is spelled "model" in the source). -/
def modalSlice : Slice ModalState :=
  createSlice
    { name := "model"
      initialState := initialState
      reducers := some
        [ ("openModal", fun state _ => { state with isOpen := true }),
          ("closeModal", fun state _ => { state with isOpen := false }) ] }

/-- The default export of `modalSlice.js`: `modalSlice.reducer`. -/
def reducer : Option ModalState → Action → ModalState := modalSlice.reducer

/-- The named exports of `modalSlice.js`: `openModal` and `closeModal`, taken out of
`modalSlice.actions`. -/
def namedExports : List (String × ActionCreator) :=
  (["openModal", "closeModal"].filterMap
    (fun key => (modalSlice.actions.lookup key).map (fun creator => (key, creator))))

/-- The binding an importer of `openModal` gets from `modalSlice.js`. -/
def openModal : Option ActionCreator := importNamed namedExports "openModal"

/-- The binding an importer of `closeModal` gets from `modalSlice.js`. -/
def closeModal : Option ActionCreator := importNamed namedExports "closeModal"

/-- The state of the modal store after the given actions, from the initial state. -/
def run (actions : List Action) : ModalState :=
  dispatchAll reducer initialState actions

end Modal

/-! ## `components/CartItem.jsx` -/

namespace CartItem

/-- Loading `CartItem.jsx`: its import line 4 is linked against `cartSlice.js`. -/
def load (linking : Linking) : Except JSError Unit :=
  linkNamed linking Cart.namedExports ["removeItem", "increase", "decrease"]

/-- The binding `removeItem` imported from `../features/cart/cartSlice`. -/
def removeItem : Option ActionCreator := importNamed Cart.namedExports "removeItem"

/-- The binding `increase` imported from `../features/cart/cartSlice`. -/
def increase : Option ActionCreator := importNamed Cart.namedExports "increase"

/-- The binding `decrease` imported from `../features/cart/cartSlice`. -/
def decrease : Option ActionCreator := importNamed Cart.namedExports "decrease"

/-- The object literal `{ id }`. -/
def idObject (id : String) : JSValue := JSValue.object [("id", JSValue.string id)]

/-- The three bindings of the import line of `CartItem.jsx`.  The click handlers below
take them as an argument; a handler returns the actions it hands to `dispatch`, or the
error thrown on the way. -/
structure Bindings where
  removeItem : Option ActionCreator
  increase : Option ActionCreator
  decrease : Option ActionCreator

/-- The bindings `CartItem.jsx` really gets from its import line. -/
def imported : Bindings :=
  { removeItem := removeItem, increase := increase, decrease := decrease }

/-- The remove button: `dispatch(removeItem(id))`. -/
def onRemoveClickWith (b : Bindings) (props : Item) : Except JSError (List Action) := do
  let action ← invoke "removeItem" b.removeItem (JSValue.string props.id)
  pure [action]

/-- The up-chevron button: `dispatch(increase({ id }))`. -/
def onIncreaseClickWith (b : Bindings) (props : Item) : Except JSError (List Action) := do
  let action ← invoke "increase" b.increase (idObject props.id)
  pure [action]

/-- The down-chevron button: `removeItem(id)` when `amount === 1`, else
`decrease({ id })`. -/
def onDecreaseClickWith (b : Bindings) (props : Item) : Except JSError (List Action) :=
  if props.amount = 1 then do
    let action ← invoke "removeItem" b.removeItem (JSValue.string props.id)
    pure [action]
  else do
    let action ← invoke "decrease" b.decrease (idObject props.id)
    pure [action]

/-- The remove button of the component as written. -/
def onRemoveClick (props : Item) : Except JSError (List Action) :=
  onRemoveClickWith imported props

/-- The up-chevron button of the component as written. -/
def onIncreaseClick (props : Item) : Except JSError (List Action) :=
  onIncreaseClickWith imported props

/-- The down-chevron button of the component as written. -/
def onDecreaseClick (props : Item) : Except JSError (List Action) :=
  onDecreaseClickWith imported props

end CartItem

/-! ## `components/CartContainer.jsx` -/

/-- The two things `CartContainer` can render. -/
inductive CartView where
  | emptyBag : CartView
  | bag (items : List Item) (total : ℚ) : CartView
deriving DecidableEq

namespace CartContainer

/-- The binding `openModal` imported from `../features/modal/modalSlice`. -/
def openModal : Option ActionCreator := Modal.openModal

/-- Loading `CartContainer.jsx`: line 2 imports `./CartItem`, which has to load first,
and line 3 imports `openModal` from `modalSlice.js`. -/
def load (linking : Linking) : Except JSError Unit := do
  CartItem.load linking
  linkNamed linking Modal.namedExports ["openModal"]

/-- Rendering `CartContainer` for a cart state: the module has to load; then the
"is currently empty" branch when `amount < 1`, otherwise the list of items with the
total and the Clear Cart button. -/
def render (linking : Linking) (cart : CartState) : Except JSError CartView := do
  load linking
  if cart.amount < 1 then pure CartView.emptyBag
  else pure (CartView.bag cart.cartItems cart.total)

/-- The Clear Cart button: `dispatch(openModal())`. -/
def onClearClick : Except JSError (List Action) := do
  let action ← invoke "openModal" openModal JSValue.undefined
  pure [action]

end CartContainer

/-! ## The specification's aggregates -/

/-- The specification's `itemCount`: the sum of the quantities of the items. -/
def specItemCount (items : List Item) : Int :=
  (items.map (fun i => i.amount)).sum

/-- The specification's `subtotal`: the sum of quantity times unit price. -/
def specSubtotal (items : List Item) : ℚ :=
  (items.map (fun i => (i.amount : ℚ) * i.price)).sum

/-! ## Example data -/

/-- Item "a": price 10, quantity 1. -/
def itemA : Item := { id := "a", title := "phone a", img := "a.png", price := 10, amount := 1 }

/-- Item "b": price 5, quantity 2. -/
def itemB : Item := { id := "b", title := "phone b", img := "b.png", price := 5, amount := 2 }

/-- Props of a `CartItem` whose id is in no cart used below. -/
def itemZ : Item := { id := "z", title := "phone z", img := "z.png", price := 7, amount := 3 }

/-- A fixture of two items. -/
def fixtureAB : List Item := [itemA, itemB]

/-- The modal scenario: open, open again, close (each called without argument). -/
def modalScenario : List Action :=
  [ { type := "model/openModal", payload := JSValue.undefined },
    { type := "model/openModal", payload := JSValue.undefined },
    { type := "model/closeModal", payload := JSValue.undefined } ]

/-! ## Lemmas on the cart reducer -/

/-- The cart reducer has no case reducer: it returns the state it is given. -/
theorem Cart.reducer_some (fixture : List Item) (s : CartState) (action : Action) :
    Cart.reducer fixture (some s) action = s := rfl

/-- On an `undefined` state the cart reducer returns the initial state. -/
theorem Cart.reducer_none (fixture : List Item) (action : Action) :
    Cart.reducer fixture none action = Cart.initialState fixture := rfl

/-- No list of actions moves the cart store. -/
theorem Cart.dispatchAll_eq (fixture : List Item) (s : CartState) (actions : List Action) :
    dispatchAll (Cart.reducer fixture) s actions = s := by
  induction actions with
  | nil => rfl
  | cons a rest ih =>
    show dispatchAll (Cart.reducer fixture) (Cart.reducer fixture (some s) a) rest = s
    rw [Cart.reducer_some]
    exact ih

/-- Every reachable cart state is the initial state. -/
theorem Cart.run_eq (fixture : List Item) (actions : List Action) :
    Cart.run fixture actions = Cart.initialState fixture :=
  Cart.dispatchAll_eq fixture _ actions

/-! ## The cart store -/

/-- Under ES module linking neither `CartItem.jsx` nor `CartContainer.jsx` loads. -/
theorem CartItem.load_strict :
    CartItem.load Linking.strict
      = Except.error (JSError.syntaxError "no export named removeItem") ∧
    CartContainer.load Linking.strict
      = Except.error (JSError.syntaxError "no export named removeItem") :=
  ⟨rfl, rfl⟩

/-- C1, the code at a failing input: with the one-item fixture `[itemA]` (price 10,
quantity 1), in the initial state and after every sequence of actions, `cartItems` is
`[itemA]`, whose quantities sum to 1 and whose prices times quantities sum to 10, while
`amount` is 0 and `total` is 0. -/
theorem Cart.aggregates_stale (actions : List Action) :
    (Cart.run [itemA] actions).cartItems = [itemA] ∧
    specItemCount (Cart.run [itemA] actions).cartItems = 1 ∧
    (Cart.run [itemA] actions).amount = 0 ∧
    specSubtotal (Cart.run [itemA] actions).cartItems = 10 ∧
    (Cart.run [itemA] actions).total = 0 := by
  rw [Cart.run_eq]
  refine ⟨rfl, rfl, rfl, ?_, rfl⟩
  simp [specSubtotal, Cart.initialState, itemA]

/-- C2, the code at a failing input: in the initial state of the fixture a (price 10,
quantity 1), b (price 5, quantity 2), the up-chevron handler of the `CartItem` of item
"a" throws on calling `increase` and dispatches nothing; after the click the state is
the one before it, with item "a" at quantity 1, `amount = 0` and `total = 0`; and the
cart reducer returns that state for every action it could be sent. -/
theorem CartItem.increase_click_changes_nothing :
    itemA ∈ (Cart.initialState fixtureAB).cartItems ∧
    CartItem.onIncreaseClick itemA
      = Except.error (JSError.typeError "increase is not a function") ∧
    afterClick (Cart.reducer fixtureAB) (Cart.initialState fixtureAB)
        (CartItem.onIncreaseClick itemA)
      = { cartItems := [itemA, itemB], amount := 0, total := 0, isLoading := true } ∧
    itemA.amount = 1 ∧
    (∀ action : Action,
      Cart.reducer fixtureAB (some (Cart.initialState fixtureAB)) action
        = Cart.initialState fixtureAB) :=
  ⟨List.mem_cons_self _ _, rfl, rfl, rfl, fun _ => rfl⟩

/-- C3, the code at a failing input: in the initial state of the fixture a, b, the
remove handler of the `CartItem` of item "b" throws on calling `removeItem` and
dispatches nothing; after the click the state is the one before it, item "b" still in
`cartItems`; and the cart reducer returns that state for every action it could be
sent. -/
theorem CartItem.remove_click_changes_nothing :
    itemB ∈ (Cart.initialState fixtureAB).cartItems ∧
    CartItem.onRemoveClick itemB
      = Except.error (JSError.typeError "removeItem is not a function") ∧
    afterClick (Cart.reducer fixtureAB) (Cart.initialState fixtureAB)
        (CartItem.onRemoveClick itemB)
      = { cartItems := [itemA, itemB], amount := 0, total := 0, isLoading := true } ∧
    itemB ∈ (afterClick (Cart.reducer fixtureAB) (Cart.initialState fixtureAB)
        (CartItem.onRemoveClick itemB)).cartItems ∧
    (∀ action : Action,
      Cart.reducer fixtureAB (some (Cart.initialState fixtureAB)) action
        = Cart.initialState fixtureAB) :=
  ⟨List.mem_cons_of_mem _ (List.mem_cons_self _ _), rfl, rfl,
   List.mem_cons_of_mem _ (List.mem_cons_self _ _), fun _ => rfl⟩

/-- C4 as stated fails: in the initial state of the one-item fixture `[itemA]`, the cart
reducer applied to the action `cart/clearCart` returns a state whose `cartItems` is
not empty. -/
theorem Cart.clearCart_counterexample :
    ¬ ((Cart.reducer [itemA] (some (Cart.initialState [itemA]))
          (createAction (getType "cart" "clearCart") JSValue.undefined)).cartItems = [] ∧
       (Cart.reducer [itemA] (some (Cart.initialState [itemA]))
          (createAction (getType "cart" "clearCart") JSValue.undefined)).amount = 0 ∧
       (Cart.reducer [itemA] (some (Cart.initialState [itemA]))
          (createAction (getType "cart" "clearCart") JSValue.undefined)).total = 0) := by
  rw [Cart.reducer_some]
  intro h
  exact List.cons_ne_nil _ _ h.1

/-- C4, amended: for every prior cart state, the cart reducer applied to a clearCart
action (whatever its type string and payload) returns the prior state; so the result
has `cartItems = []`, `amount = 0` and `total = 0` exactly when the prior state had. -/
theorem Cart.clearCart_leaves_state (fixture : List Item) (s : CartState) (type : String)
    (payload : JSValue) :
    Cart.reducer fixture (some s) { type := type, payload := payload } = s ∧
    (((Cart.reducer fixture (some s) { type := type, payload := payload }).cartItems = [] ∧
      (Cart.reducer fixture (some s) { type := type, payload := payload }).amount = 0 ∧
      (Cart.reducer fixture (some s) { type := type, payload := payload }).total = 0) ↔
     (s.cartItems = [] ∧ s.amount = 0 ∧ s.total = 0)) := by
  rw [Cart.reducer_some]
  exact ⟨rfl, Iff.rfl⟩

/-- C6: for every cart state that holds an item with the given id and quantity 1, the
cart reducer applied directly to a decrease action with payload `{ id }` (whatever its
type string, `cart/decrease` included) returns a state equal to the input state: the
item is still in `cartItems` with quantity 1 (neither removed nor taken to 0), the
list of items is the same, and `amount` and `total` are unchanged. -/
theorem Cart.decrease_at_one_unchanged (fixture : List Item) (s : CartState) (id : String)
    (item : Item) (type : String) (hmem : item ∈ s.cartItems) (hid : item.id = id)
    (hone : item.amount = 1) :
    Cart.reducer fixture (some s) { type := type, payload := CartItem.idObject id } = s ∧
    (∃ i ∈ (Cart.reducer fixture (some s)
      { type := type, payload := CartItem.idObject id }).cartItems,
        i = item ∧ i.id = id ∧ i.amount = 1) ∧
    (Cart.reducer fixture (some s)
      { type := type, payload := CartItem.idObject id }).cartItems = s.cartItems ∧
    (Cart.reducer fixture (some s)
      { type := type, payload := CartItem.idObject id }).amount = s.amount ∧
    (Cart.reducer fixture (some s)
      { type := type, payload := CartItem.idObject id }).total = s.total := by
  rw [Cart.reducer_some]
  exact ⟨rfl, ⟨item, hmem, rfl, hid, hone⟩, rfl, rfl, rfl⟩

/-- Witness of `Cart.decrease_at_one_unchanged`: item "a" (quantity 1) in the initial
state of the two-item fixture, action type `cart/decrease`. -/
theorem Cart.decrease_at_one_unchanged_witness :
    (itemA ∈ (Cart.initialState fixtureAB).cartItems ∧ itemA.id = "a" ∧
      itemA.amount = 1) ∧
    (Cart.reducer fixtureAB (some (Cart.initialState fixtureAB))
      { type := getType "cart" "decrease", payload := CartItem.idObject "a" }
        = Cart.initialState fixtureAB ∧
     (∃ i ∈ (Cart.reducer fixtureAB (some (Cart.initialState fixtureAB))
      { type := getType "cart" "decrease", payload := CartItem.idObject "a" }).cartItems,
        i = itemA ∧ i.id = "a" ∧ i.amount = 1) ∧
     (Cart.reducer fixtureAB (some (Cart.initialState fixtureAB))
      { type := getType "cart" "decrease", payload := CartItem.idObject "a" }).cartItems
        = (Cart.initialState fixtureAB).cartItems ∧
     (Cart.reducer fixtureAB (some (Cart.initialState fixtureAB))
      { type := getType "cart" "decrease", payload := CartItem.idObject "a" }).amount
        = (Cart.initialState fixtureAB).amount ∧
     (Cart.reducer fixtureAB (some (Cart.initialState fixtureAB))
      { type := getType "cart" "decrease", payload := CartItem.idObject "a" }).total
        = (Cart.initialState fixtureAB).total) :=
  ⟨⟨List.mem_cons_self _ _, rfl, rfl⟩,
   Cart.decrease_at_one_unchanged fixtureAB (Cart.initialState fixtureAB) "a" itemA
     (getType "cart" "decrease") (List.mem_cons_self _ _) rfl rfl⟩

/-- C10, the code at a failing input: for every fixture and every finite sequence of
actions the reached cart state has `amount = 0`, `total = 0` and `isLoading = true`, so
the guard `amount < 1` holds; but under ES module linking `CartContainer.jsx` does not
load (its import of `./CartItem` fails on the missing export `removeItem`) and renders
nothing, and only under late binding does it render the "is currently empty" branch. -/
theorem CartContainer.render_does_not_link (fixture : List Item) (actions : List Action) :
    (Cart.run fixture actions).amount = 0 ∧
    (Cart.run fixture actions).total = 0 ∧
    (Cart.run fixture actions).isLoading = true ∧
    (Cart.run fixture actions).amount < 1 ∧
    CartContainer.render Linking.strict (Cart.run fixture actions)
      = Except.error (JSError.syntaxError "no export named removeItem") ∧
    CartContainer.render Linking.late (Cart.run fixture actions)
      = Except.ok CartView.emptyBag := by
  rw [Cart.run_eq]
  refine ⟨rfl, rfl, rfl, ?_, rfl, rfl⟩
  show (0 : Int) < 1
  decide

/-! ## The modal store -/

/-- The imported `openModal` is the creator of the action type `model/openModal`. -/
theorem Modal.invoke_openModal (payload : JSValue) :
    invoke "openModal" Modal.openModal payload
      = Except.ok { type := "model/openModal", payload := payload } := rfl

/-- The imported `closeModal` is the creator of the action type `model/closeModal`. -/
theorem Modal.invoke_closeModal (payload : JSValue) :
    invoke "closeModal" Modal.closeModal payload
      = Except.ok { type := "model/closeModal", payload := payload } := rfl

/-- The case reducer `openModal` sets `isOpen` to true. -/
theorem Modal.reducer_openModal (s : ModalState) (payload : JSValue) :
    Modal.reducer (some s) { type := "model/openModal", payload := payload }
      = { isOpen := true } := rfl

/-- The case reducer `closeModal` sets `isOpen` to false. -/
theorem Modal.reducer_closeModal (s : ModalState) (payload : JSValue) :
    Modal.reducer (some s) { type := "model/closeModal", payload := payload }
      = { isOpen := false } := rfl

/-- Dispatching one more action after a list. -/
theorem dispatchAll_concat {σ : Type} (reducer : Option σ → Action → σ) (state : σ)
    (actions : List Action) (a : Action) :
    dispatchAll reducer state (actions ++ [a])
      = reducer (some (dispatchAll reducer state actions)) a := by
  simp [dispatchAll, List.foldl_append]

/-- C7: for every modal state and every payload, `openModal(payload)` is an action on
which the modal reducer returns the state `{ isOpen: true }`, and `closeModal(payload)`
one on which it returns `{ isOpen: false }`; applying either action a second time gives
the same state as applying it once; a modal state is its `isOpen` field and nothing
more. -/
theorem Modal.step (s : ModalState) (payload : JSValue) :
    (∃ a, invoke "openModal" Modal.openModal payload = Except.ok a ∧
      Modal.reducer (some s) a = { isOpen := true } ∧
      Modal.reducer (some (Modal.reducer (some s) a)) a = Modal.reducer (some s) a) ∧
    (∃ a, invoke "closeModal" Modal.closeModal payload = Except.ok a ∧
      Modal.reducer (some s) a = { isOpen := false } ∧
      Modal.reducer (some (Modal.reducer (some s) a)) a = Modal.reducer (some s) a) ∧
    s = { isOpen := s.isOpen } :=
  ⟨⟨_, Modal.invoke_openModal payload, rfl, rfl⟩,
   ⟨_, Modal.invoke_closeModal payload, rfl, rfl⟩, rfl⟩

/-- C8: the initial modal state has `isOpen = false`, and after any finite sequence of
actions made by `openModal` or `closeModal`, dispatched from the initial state,
`isOpen` is true exactly when the sequence has a last action and that action was made
by `openModal`. -/
theorem Modal.isOpen_iff_last_open (actions : List Action)
    (h : ∀ a ∈ actions, ∃ payload,
      invoke "openModal" Modal.openModal payload = Except.ok a ∨
      invoke "closeModal" Modal.closeModal payload = Except.ok a) :
    Modal.initialState.isOpen = false ∧
    ((Modal.run actions).isOpen = true ↔
      ∃ a payload, actions.getLast? = some a ∧
        invoke "openModal" Modal.openModal payload = Except.ok a) := by
  refine ⟨rfl, ?_⟩
  rcases List.eq_nil_or_concat actions with hnil | ⟨front, a, hcat⟩
  · subst hnil
    constructor
    · intro hopen
      exact absurd hopen (by decide)
    · rintro ⟨a, payload, hlast, -⟩
      simp at hlast
  · rw [List.concat_eq_append] at hcat
    subst hcat
    have hrun : Modal.run (front ++ [a])
        = Modal.reducer (some (Modal.run front)) a :=
      dispatchAll_concat Modal.reducer Modal.initialState front a
    have hlast : (front ++ [a]).getLast? = some a := by simp
    obtain ⟨payload, ha | ha⟩ := h a (by simp)
    · rw [Modal.invoke_openModal] at ha
      have ha2 : a = { type := "model/openModal", payload := payload } :=
        (Except.ok.inj ha).symm
      constructor
      · intro _
        exact ⟨a, payload, hlast, by rw [Modal.invoke_openModal, ha2]⟩
      · intro _
        rw [hrun, ha2, Modal.reducer_openModal]
    · rw [Modal.invoke_closeModal] at ha
      have ha2 : a = { type := "model/closeModal", payload := payload } :=
        (Except.ok.inj ha).symm
      constructor
      · intro hopen
        rw [hrun, ha2, Modal.reducer_closeModal] at hopen
        exact absurd hopen (by decide)
      · rintro ⟨b, payload2, hb, hinv⟩
        rw [hlast] at hb
        rw [Modal.invoke_openModal] at hinv
        have hb2 : b = a := (Option.some.inj hb).symm
        have hb3 : b = { type := "model/openModal", payload := payload2 } :=
          (Except.ok.inj hinv).symm
        rw [hb2, ha2] at hb3
        have htype : "model/closeModal" = "model/openModal" := congrArg Action.type hb3
        exact absurd htype (by decide)

/-- Every action of the modal scenario is made by `openModal` or `closeModal`. -/
theorem modalScenario_actions :
    ∀ a ∈ modalScenario, ∃ payload,
      invoke "openModal" Modal.openModal payload = Except.ok a ∨
      invoke "closeModal" Modal.closeModal payload = Except.ok a := by
  intro a ha
  simp only [modalScenario, List.mem_cons, List.mem_singleton, List.not_mem_nil,
    or_false] at ha
  rcases ha with rfl | rfl | rfl
  · exact ⟨JSValue.undefined, Or.inl rfl⟩
  · exact ⟨JSValue.undefined, Or.inl rfl⟩
  · exact ⟨JSValue.undefined, Or.inr rfl⟩

/-- Witness of `Modal.isOpen_iff_last_open` on the scenario open, open, close. -/
theorem Modal.isOpen_iff_last_open_witness :
    (∀ a ∈ modalScenario, ∃ payload,
      invoke "openModal" Modal.openModal payload = Except.ok a ∨
      invoke "closeModal" Modal.closeModal payload = Except.ok a) ∧
    (Modal.initialState.isOpen = false ∧
     ((Modal.run modalScenario).isOpen = true ↔
      ∃ a payload, modalScenario.getLast? = some a ∧
        invoke "openModal" Modal.openModal payload = Except.ok a)) :=
  ⟨modalScenario_actions, Modal.isOpen_iff_last_open modalScenario modalScenario_actions⟩

/-- The modal scenario step by step: open gives true, open again true, close false. -/
theorem Modal.scenario_steps :
    (Modal.run (modalScenario.take 1)).isOpen = true ∧
    (Modal.run (modalScenario.take 2)).isOpen = true ∧
    (Modal.run (modalScenario.take 3)).isOpen = false :=
  ⟨rfl, rfl, rfl⟩

/-! ## The click handlers of `CartItem` -/

/-- None of the three names `CartItem.jsx` imports is exported by `cartSlice.js`. -/
theorem CartItem.imported_undefined :
    CartItem.imported.removeItem = none ∧ CartItem.imported.increase = none ∧
    CartItem.imported.decrease = none :=
  ⟨rfl, rfl, rfl⟩

/-- With bindings that are action creators, the down-chevron handler dispatches exactly
one action: `removeItem(id)` when the quantity is 1 and `decrease({ id })` otherwise. -/
theorem CartItem.onDecreaseClickWith_defined (remove increase decrease : ActionCreator)
    (props : Item) :
    CartItem.onDecreaseClickWith
        { removeItem := some remove, increase := some increase, decrease := some decrease }
        props
      = Except.ok [if props.amount = 1 then remove (JSValue.string props.id)
                   else decrease (CartItem.idObject props.id)] := by
  unfold CartItem.onDecreaseClickWith
  split <;> rfl

/-- C5, the code at a failing input: for the props `itemZ`, whose id "z" is in no item
of the cart, each of the three click handlers of `CartItem` throws a `TypeError` and
dispatches nothing, because the imported `increase`, `decrease` and `removeItem` are
`undefined`. -/
theorem CartItem.unknown_id_clicks_throw :
    (∀ i ∈ (Cart.initialState fixtureAB).cartItems, i.id ≠ itemZ.id) ∧
    CartItem.onIncreaseClick itemZ
      = Except.error (JSError.typeError "increase is not a function") ∧
    CartItem.onDecreaseClick itemZ
      = Except.error (JSError.typeError "decrease is not a function") ∧
    CartItem.onRemoveClick itemZ
      = Except.error (JSError.typeError "removeItem is not a function") := by
  refine ⟨?_, rfl, rfl, rfl⟩
  decide

/-- C9, the code at a failing input: the down-chevron handler of `CartItem` dispatches
no action, neither for `itemA` (quantity 1), where it throws on calling `removeItem`,
nor for `itemB` (quantity 2), where it throws on calling `decrease`. -/
theorem CartItem.onDecreaseClick_throws :
    itemA.amount = 1 ∧
    CartItem.onDecreaseClick itemA
      = Except.error (JSError.typeError "removeItem is not a function") ∧
    itemB.amount ≠ 1 ∧
    CartItem.onDecreaseClick itemB
      = Except.error (JSError.typeError "decrease is not a function") := by
  refine ⟨rfl, rfl, ?_, rfl⟩
  decide

end ReduxCart
